import Mathlib

/-!
Verification development for the Telegram medical intake bot
(`src/index.js`).  The JavaScript source is shallowly embedded:

* the two global `Map`s `userBuffers` / `bufferTimeouts` become a
  `BotState` record of `Nat → Option _` maps keyed by chat id;
* `setTimeout` timers are modelled by the absolute firing deadline
  (a timer armed at time `now` fires at `now + CONFIG.MEDIA_TIMEOUT_MS`
  unless replaced by `resetTimeout` or removed by `clearBuffer`);
* Gemini, HTTP download and ffmpeg are opaque collaborators; they are
  passed in as explicit outcome functions and every Gemini invocation is
  recorded in a call trace;
* JavaScript string primitives (`trim`, `toLowerCase`, `startsWith`,
  `endsWith`) are re-implemented over `List Char` to match JS semantics;
* raw bytes and their base64 transport encoding are both modelled by the
  abstract byte-string itself (the encoding is a bijective transport
  detail none of the verified properties depend on).
-/

namespace PatientBot

/-- The `type` field of a buffered item: `'image' | 'pdf' | 'audio' |
`'video' | 'text'` as pushed by `handleMedia` and the text handler. -/
inductive ItemType where
  | image
  | pdf
  | audio
  | video
  | text
deriving DecidableEq, Repr

/-- The string used for an item type in template literals
(`item.type` interpolation). -/
def ItemType.typeName : ItemType → String
  | .image => "image"
  | .pdf => "pdf"
  | .audio => "audio"
  | .video => "video"
  | .text => "text"

/-- One element of a `userBuffers` entry: `\x7b type, url, mime, caption \x7d`
for media (pushed in `handleMedia`) or `\x7b type: 'text', text \x7d`
(pushed in the text handler).  Unused fields are the empty string. -/
structure BufferedItem where
  type : ItemType
  url : String
  mime : String
  caption : String
  text : String
deriving DecidableEq, Repr

/-- `CONFIG.MEDIA_TIMEOUT_MS` (five minutes). -/
def MEDIA_TIMEOUT_MS : Nat := 300000

/-- The two process-wide maps of `src/index.js`:
`userBuffers : Map<chatId, item[]>` and
`bufferTimeouts : Map<chatId, Timeout>`.  A timeout is represented by
its absolute firing time. -/
structure BotState where
  userBuffers : Nat → Option (List BufferedItem)
  bufferTimeouts : Nat → Option Nat

/-- A state with no buffers and no timers (process start). -/
def emptyState : BotState :=
  { userBuffers := fun _ => none, bufferTimeouts := fun _ => none }

/-- `getBuffer(chatId)`: create the entry if absent and return the
buffer.  Returns the updated state together with the list the caller
may mutate (mutation is modelled by `pushItem`). -/
def getBuffer (st : BotState) (chatId : Nat) : BotState × List BufferedItem :=
  match st.userBuffers chatId with
  | some b => (st, b)
  | none =>
    ({ st with userBuffers := fun c => if c = chatId then some [] else st.userBuffers c }, [])

/-- `getBuffer(chatId).push(item)`: the push mutates the array held in
the map, so the map entry now ends with `item`. -/
def pushItem (st : BotState) (chatId : Nat) (item : BufferedItem) : BotState :=
  let p := getBuffer st chatId
  { p.1 with
    userBuffers := fun c => if c = chatId then some (p.2 ++ [item]) else p.1.userBuffers c }

/-- `resetTimeout(chatId, ctx)`: clear any existing timer for the chat
and arm a fresh single-shot timer that fires `MEDIA_TIMEOUT_MS` after
`now`. -/
def resetTimeout (st : BotState) (chatId : Nat) (now : Nat) : BotState :=
  { st with
    bufferTimeouts := fun c =>
      if c = chatId then some (now + MEDIA_TIMEOUT_MS) else st.bufferTimeouts c }

/-- `clearBuffer(chatId)`: cancel and delete the timer, delete the
buffer entry, and return the items it held (`[]` if absent). -/
def clearBuffer (st : BotState) (chatId : Nat) : BotState × List BufferedItem :=
  let st1 : BotState :=
    { st with
      bufferTimeouts := fun c => if c = chatId then none else st.bufferTimeouts c }
  let items := (st1.userBuffers chatId).getD []
  ({ st1 with
     userBuffers := fun c => if c = chatId then none else st1.userBuffers c }, items)

/-- One append as performed by both the text handler and `handleMedia`:
`getBuffer(chatId).push(item)` followed by `resetTimeout(chatId, ctx)`
at the current time `now`. -/
def appendItem (st : BotState) (chatId : Nat) (item : BufferedItem) (now : Nat) : BotState :=
  resetTimeout (pushItem st chatId item) chatId now

/-- A sequence of appends, each tagged with the time at which it
happened. -/
def appendMany (st : BotState) (chatId : Nat) : List (Nat × BufferedItem) → BotState
  | [] => st
  | (t, it) :: rest => appendMany (appendItem st chatId it t) chatId rest

/-- The inactivity notification sent by the timer callback in
`resetTimeout`. -/
def timeoutMessage (n : Nat) : String :=
  "⏰ Timeout: Cleared " ++ toString n ++ " pending files from buffer."

/-- The body of the `setTimeout` callback armed by `resetTimeout`:
drain the buffer and, when it was non-empty, send one inactivity
notification carrying the discarded count. -/
def timeoutCallback (st : BotState) (chatId : Nat) : BotState × List String :=
  let p := clearBuffer st chatId
  if p.2.length > 0 then (p.1, [timeoutMessage p.2.length]) else (p.1, [])

/-! ### KeyRotationClient (`generateGeminiResponse`, src/index.js 173-191)

The opaque Gemini invocation for one key is modelled by an outcome
function `outcome : String → Option String` (`some text` = the call for
that key succeeds with `text`; `none` = it throws).  Beside the
`Except` result we return the list of keys actually tried, in order. -/

/-- The `for` loop of `generateGeminiResponse`: try each key in order,
return the first success, otherwise throw the aggregate error. -/
def tryKeysLoop (outcome : String → Option String) :
    List String → Except String String × List String
  | [] => (.error "All API keys failed.", [])
  | k :: rest =>
    match outcome k with
    | some text => (.ok text, [k])
    | none =>
      let p := tryKeysLoop outcome rest
      (p.1, k :: p.2)

/-- `generateGeminiResponse(contentParts, systemInstruction)` with the
key pool `CONFIG.API_KEYS = keys`: empty pool throws `"No API Keys"`,
otherwise the keys are tried sequentially. -/
def generateGeminiResponse (keys : List String) (outcome : String → Option String) :
    Except String String × List String :=
  if keys.length = 0 then (.error "No API Keys", []) else tryKeysLoop outcome keys

/-- The per-key outcome used by `key_rotation_order_witness`: keys
`"A"` and `"B"` fail, key `"C"` succeeds. -/
def outcomeABC : String → Option String :=
  fun k => if k = "C" then some "profile text" else none

/-! ### JavaScript string primitives

`isQuestion` and the handler use `trim`, `toLowerCase`, `startsWith`
and `endsWith`; they are modelled character-exactly over `List Char`
(ASCII lowercasing, the JS whitespace set restricted to the characters
that can occur here). -/

/-- The whitespace characters stripped by `String.prototype.trim`
(ASCII whitespace plus NBSP and the BOM). -/
def jsIsWhitespace (c : Char) : Bool :=
  c = ' ' || c = '\t' || c = '\n' || c = '\r' ||
  c = '\x0b' || c = '\x0c' || c = '\u00A0' || c = '\uFEFF'

/-- `String.prototype.toLowerCase` on one character (ASCII range). -/
def jsToLowerChar (c : Char) : Char :=
  if 'A' ≤ c ∧ c ≤ 'Z' then Char.ofNat (c.toNat + 32) else c

/-- `String.prototype.toLowerCase`. -/
def jsToLower (l : List Char) : List Char := l.map jsToLowerChar

/-- `String.prototype.trim`: drop whitespace from both ends. -/
def jsTrim (l : List Char) : List Char :=
  ((l.dropWhile jsIsWhitespace).reverse.dropWhile jsIsWhitespace).reverse

/-- `String.prototype.trim` packaged on `String`. -/
def jsTrimStr (s : String) : String := String.mk (jsTrim s.data)

/-- `String.prototype.startsWith`. -/
def jsStartsWith (l pre : List Char) : Bool := pre.isPrefixOf l

/-- `String.prototype.endsWith`. -/
def jsEndsWith (l suf : List Char) : Bool := suf.isSuffixOf l

/-- The fixed word list of `isQuestion`. -/
def questionWords : List String :=
  ["what", "why", "how", "is", "does", "can", "explain"]

/-- `isQuestion(text)` (src/index.js 306-311).  The argument is
`Option String` because the call sites can pass `null`; `none` and the
empty string are both falsy and short-circuit to `false`. -/
def isQuestion : Option String → Bool
  | none => false
  | some text =>
    if text = "" then false
    else
      let t := jsTrim (jsToLower text.data)
      jsEndsWith t ['?'] || questionWords.any (fun w => jsStartsWith t w.data)

/-- The leading token of a trimmed text: the maximal prefix free of
whitespace. -/
def leadingToken (l : List Char) : List Char :=
  l.takeWhile (fun c => ! jsIsWhitespace c)

/-- The question classifier as the spec words it: the trimmed
lowercased text ends with `?`, or its leading token (the first
whitespace-delimited word) is one of the fixed words. -/
def isQuestionSpec : Option String → Bool
  | none => false
  | some text =>
    let t := jsTrim (jsToLower text.data)
    jsEndsWith t ['?'] || questionWords.any (fun w => leadingToken t = w.data)

/-! ### RequestDispatcher (`processRequest`, src/index.js 194-304)

The Gemini backend is passed in as a deterministic oracle
`gen : List Part → String → Except String String` (content parts and
system instruction to response text or thrown error); every invocation
is recorded in the returned trace.  Downloads and frame extraction are
likewise oracles: `fetch url = none` models a failed `axios.get`,
`extract bytes fps = none` models a failed `extractFramesFromVideo`. -/

/-- The operating mode, a closed enum (the Mongo schema restricts the
`mode` field to `'primary' | 'secondary'`). -/
inductive Mode where
  | primary
  | secondary
deriving DecidableEq, Repr

/-- The string stored for a mode. -/
def Mode.str : Mode → String
  | .primary => "primary"
  | .secondary => "secondary"

/-- One Gemini content part: a prompt string or an
`\x7b inlineData: \x7b data, mimeType \x7d \x7d` blob. -/
inductive Part where
  | textPart (s : String)
  | inlineData (data : String) (mimeType : String)
deriving DecidableEq, Repr

/-- One recorded Gemini invocation: the content parts and the system
instruction it was submitted under. -/
structure GenCall where
  parts : List Part
  systemInstruction : String
deriving DecidableEq, Repr

/-- A persisted `ContextModel` document (`SynthesisRecord`). -/
structure Context where
  chatId : String
  messageId : String
  originalMedia : List (ItemType × String)
  responseText : String
  mode : Mode
deriving DecidableEq, Repr

/-- `PRIMARY_SYSTEM_INSTRUCTION` (src/index.js 21-49).  The constant is
a long fixed prose block; it is reproduced here by its opening
sentence, which is all the verified properties depend on (they only
ever compare which of the two distinct profiles a call was submitted
under). -/
def PRIMARY_SYSTEM_INSTRUCTION : String :=
  "You are an expert medical AI assistant specializing in radiology. You have two modes of operation: CLINICAL PROFILE GENERATION and FOLLOW-UP INTERACTION."

/-- `SECONDARY_SYSTEM_INSTRUCTION` (src/index.js 53), reproduced by its
opening sentence as above. -/
def SECONDARY_SYSTEM_INSTRUCTION : String :=
  "You are an expert radiologist. When you receive a context, it is mostly about a patient and sometimes they might have been advised with any imaging modality."

/-- `SECONDARY_TRIGGER_PROMPT` (src/index.js 57). -/
def SECONDARY_TRIGGER_PROMPT : String :=
  "Here is the Clinical Profile generated from the patient\x27s reports. Please analyze this profile according to your system instructions and provide the final output."

/-- The caption note pushed for one video frame
(`[Video Frame Caption]: ...`). -/
def videoCaptionNote (caption : String) : String :=
  "[Video Frame Caption]: " ++ caption

/-- The caption note pushed for an image/pdf/audio item
(`[<type> caption]: ...`). -/
def mediaCaptionNote (t : ItemType) (caption : String) : String :=
  "[" ++ t.typeName ++ " caption]: " ++ caption

/-- Resolution of one buffered item into Gemini parts and text notes
(the body of the `for` loop of `processRequest`).  A failed download or
extraction is caught and yields nothing. -/
def resolveOne (fetch : String → Option String)
    (extract : String → Nat → Option (List String)) (targetFps : Nat)
    (item : BufferedItem) : List Part × List String :=
  match item.type with
  | .video =>
    match fetch item.url with
    | none => ([], [])
    | some videoBuffer =>
      match extract videoBuffer targetFps with
      | none => ([], [])
      | some frames =>
        (frames.map (fun f => Part.inlineData f "image/jpeg"),
         if item.caption ≠ "" then frames.map (fun _ => videoCaptionNote item.caption) else [])
  | .text => ([], [item.text])
  | t =>
    match fetch item.url with
    | none => ([], [])
    | some data =>
      ([Part.inlineData data item.mime],
       if item.caption ≠ "" then [mediaCaptionNote t item.caption] else [])

/-- The full resolution loop: each item contributes its parts and notes
in submission order. -/
def resolveItems (fetch : String → Option String)
    (extract : String → Nat → Option (List String)) (targetFps : Nat) :
    List BufferedItem → List Part × List String
  | [] => ([], [])
  | item :: rest =>
    let p := resolveOne fetch extract targetFps item
    let q := resolveItems fetch extract targetFps rest
    (p.1 ++ q.1, p.2 ++ q.2)

/-- JavaScript template interpolation of a possibly-null string. -/
def optToJs : Option String → String
  | some s => s
  | none => "null"

/-- The fresh-synthesis prompt (`Analyze these medical files. ...`). -/
def freshPrompt (textNotes : List String) : String :=
  "Analyze these medical files.\n=== NOTES ===\n" ++
    String.intercalate "\n" textNotes ++ "\n\nGenerate the Clinical Profile."

/-- The follow-up question prompt. -/
def questionPrompt (prevText : String) (textNotes : List String) (userQuery : String) : String :=
  "User asks a QUESTION about the previous output.\n=== PREVIOUS OUTPUT ===\n" ++
    prevText ++ "\n=== NEW CONTEXT ===\n" ++ String.intercalate "\n" textNotes ++
    "\n=== USER QUESTION ===\n" ++ userQuery ++
    "\n\nAnswer the question directly based on the context."

/-- The follow-up update/correction prompt. -/
def correctionPrompt (prevText : String) (userQuery : String) (textNotes : List String) : String :=
  "User provides UPDATE/CORRECTION.\n=== PREVIOUS OUTPUT ===\n" ++
    prevText ++ "\n=== NEW INFO ===\n" ++ userQuery ++ "\n" ++
    String.intercalate "\n" textNotes ++ "\n\nGenerate UPDATED output."

/-- The chained-mode hand-off prompt wrapping the primary response. -/
def secondaryPrompt (primaryResponse : String) : String :=
  SECONDARY_TRIGGER_PROMPT ++ "\n\n=== CLINICAL PROFILE ===\n" ++
    primaryResponse ++ "\n=== END PROFILE ==="

/-- The value returned by `processRequest`. -/
structure ProcResult where
  response : String
  mode : Mode
deriving DecidableEq, Repr

/-- `processRequest(chatId, items, mode, previousContext, userQuery,
targetFps)`.  Returns the result (or the propagated thrown error)
together with the trace of Gemini invocations made, in order. -/
def processRequest (gen : List Part → String → Except String String)
    (fetch : String → Option String)
    (extract : String → Nat → Option (List String))
    (chatId : Nat) (items : List BufferedItem) (mode : Mode)
    (previousContext : Option Context) (userQuery : Option String)
    (targetFps : Nat) : Except String ProcResult × List GenCall :=
  let r := resolveItems fetch extract targetFps items
  let processedContent := r.1
  let textNotes := r.2
  match previousContext with
  | some prev =>
    let instruction :=
      if prev.mode = Mode.secondary then SECONDARY_SYSTEM_INSTRUCTION
      else PRIMARY_SYSTEM_INSTRUCTION
    let prompt :=
      if isQuestion userQuery then
        questionPrompt prev.responseText textNotes (optToJs userQuery)
      else
        correctionPrompt prev.responseText (optToJs userQuery) textNotes
    let request := Part.textPart prompt :: processedContent
    (match gen request instruction with
     | .ok response => (.ok ⟨response, prev.mode⟩, [⟨request, instruction⟩])
     | .error e => (.error e, [⟨request, instruction⟩]))
  | none =>
    match mode with
    | .primary =>
      let request := Part.textPart (freshPrompt textNotes) :: processedContent
      (match gen request PRIMARY_SYSTEM_INSTRUCTION with
       | .ok response => (.ok ⟨response, .primary⟩, [⟨request, PRIMARY_SYSTEM_INSTRUCTION⟩])
       | .error e => (.error e, [⟨request, PRIMARY_SYSTEM_INSTRUCTION⟩]))
    | .secondary =>
      let requestPrimary := Part.textPart (freshPrompt textNotes) :: processedContent
      match gen requestPrimary PRIMARY_SYSTEM_INSTRUCTION with
      | .error e => (.error e, [⟨requestPrimary, PRIMARY_SYSTEM_INSTRUCTION⟩])
      | .ok primaryResponse =>
        let requestSecondary := [Part.textPart (secondaryPrompt primaryResponse)]
        match gen requestSecondary SECONDARY_SYSTEM_INSTRUCTION with
        | .ok response =>
          (.ok ⟨response, .secondary⟩,
           [⟨requestPrimary, PRIMARY_SYSTEM_INSTRUCTION⟩,
            ⟨requestSecondary, SECONDARY_SYSTEM_INSTRUCTION⟩])
        | .error e =>
          (.error e,
           [⟨requestPrimary, PRIMARY_SYSTEM_INSTRUCTION⟩,
            ⟨requestSecondary, SECONDARY_SYSTEM_INSTRUCTION⟩])

/-! ### Telegram text handler (`bot.on(message('text'))`, src/index.js 340-433)

Replies are modelled as the ordered list of texts sent; the `i`-th
reply of a handler run gets message id `startId + i` (the transport
assigns fresh ids).  Deletion of the interim loading notice is a
transport effect with no bearing on the verified properties and is not
tracked.  The context store (`ContextModel.findOne`) is an oracle
`store : String → String → Option Context`. -/

/-- The regex `^(\.|(\.[1-3]))$`. -/
def isPrimaryTrigger (t : String) : Bool :=
  t = "." || t = ".1" || t = ".2" || t = ".3"

/-- The regex `^(\.\.|(\.\.[1-3]))$`. -/
def isSecondaryTrigger (t : String) : Bool :=
  t = ".." || t = "..1" || t = "..2" || t = "..3"

/-- FPS parsing: the last character if it is a digit, else 3; forced to
3 for the bare markers. -/
def parseFps (text : String) : Nat :=
  let fromLast :=
    match text.data.getLast? with
    | some c => if c.isDigit then c.toNat - 48 else 3
    | none => 3
  if text = "." || text = ".." then 3 else fromLast

/-- `result.response.match(/[\s\S]\x7b1,4000\x7d/g) || []`: split into
chunks of at most 4000 characters (empty text gives no chunk). -/
def chunkChars (l : List Char) : List String :=
  if h : l = [] then []
  else String.mk (l.take 4000) :: chunkChars (l.drop 4000)
termination_by l.length
decreasing_by
  simp only [List.length_drop]
  have : 0 < l.length := List.length_pos.mpr h
  omega

/-- Chunking packaged on `String`. -/
def chunk4000 (s : String) : List String := chunkChars s.data

/-- The external collaborators of one handler run. -/
structure HandlerEnv where
  gen : List Part → String → Except String String
  fetch : String → Option String
  extract : String → Nat → Option (List String)
  store : String → String → Option Context
  now : Nat

/-- The observable output of one handler run: final state, replies
sent in order, and records persisted. -/
structure HandlerOut where
  state : BotState
  replies : List String
  saved : List Context

/-- The trigger branch of the text handler (src/index.js 350-390). -/
def handleTrigger (env : HandlerEnv) (st : BotState) (chatId : Nat)
    (text : String) (startId : Nat) : HandlerOut :=
  let p := clearBuffer st chatId
  let items := p.2
  if items.length = 0 then
    { state := p.1, replies := ["⚠️ Buffer empty. Send files first."], saved := [] }
  else
    let fps := parseFps text
    let mode := if isSecondaryTrigger text then Mode.secondary else Mode.primary
    let label := if isSecondaryTrigger text then "CHAINED Analysis" else "Clinical Profile"
    let loading := "⏳ Processing " ++ toString items.length ++ " items (" ++
      label ++ ", Smart " ++ toString fps ++ " FPS)..."
    match (processRequest env.gen env.fetch env.extract chatId items mode none none fps).1 with
    | .ok result =>
      let parts := chunk4000 result.response
      let saved :=
        if parts.length > 0 then
          [{ chatId := toString chatId,
             messageId := toString (startId + parts.length),
             originalMedia := items.map (fun i => (i.type, i.mime)),
             responseText := result.response,
             mode := result.mode }]
        else []
      { state := p.1, replies := loading :: parts, saved := saved }
    | .error e =>
      { state := p.1, replies := [loading, "❌ Error: " ++ e], saved := [] }

/-- The reply (follow-up) branch of the text handler
(src/index.js 393-427), entered once the store returned `context`. -/
def handleReply (env : HandlerEnv) (st : BotState) (chatId : Nat)
    (text : String) (context : Context) (startId : Nat) : HandlerOut :=
  let loading := "🔄 Analyzing reply (" ++ context.mode.str ++ " context)..."
  match (processRequest env.gen env.fetch env.extract chatId [] context.mode
      (some context) (some text) 3).1 with
  | .ok result =>
    { state := st,
      replies := [loading, result.response],
      saved := [{ chatId := toString chatId,
                  messageId := toString (startId + 1),
                  originalMedia := context.originalMedia,
                  responseText := result.response,
                  mode := context.mode }] }
  | .error e =>
    { state := st, replies := [loading, "❌ Error: " ++ e], saved := [] }

/-- The whole text handler: trim, check triggers, check reply linkage
against the store, else buffer the text as a note. -/
def handleText (env : HandlerEnv) (st : BotState) (chatId : Nat)
    (text0 : String) (replyTo : Option Nat) (startId : Nat) : HandlerOut :=
  let text := jsTrimStr text0
  if isPrimaryTrigger text || isSecondaryTrigger text then
    handleTrigger env st chatId text startId
  else
    match replyTo with
    | some rid =>
      match env.store (toString chatId) (toString rid) with
      | some context => handleReply env st chatId text context startId
      | none =>
        { state := appendItem st chatId ⟨ItemType.text, "", "", "", text⟩ env.now,
          replies := ["📝 Text note added."], saved := [] }
    | none =>
      { state := appendItem st chatId ⟨ItemType.text, "", "", "", text⟩ env.now,
        replies := ["📝 Text note added."], saved := [] }

/-! ### FrameSampler (`extractFramesFromVideo`, src/index.js 126-168)

The temporary directory is modelled as the list of (name, bytes)
files present; the ffmpeg run is an outcome parameter: on `ended` it
has written the listed frame files (given in the sorted order
`readdirSync(...).filter(...).sort()` would return them, which is
chronological because the output pattern numbers frames `%03d`); on
`errored` it failed after having written the listed frame files. -/

/-- The temporary input file name `input_<tempId>.mp4`. -/
def inputName (tempId : String) : String := "input_" ++ tempId ++ ".mp4"

/-- The result of the ffmpeg invocation on the temp input file. -/
inductive FfmpegOutcome where
  | ended (frames : List (String × String))
  | errored (frames : List (String × String)) (err : String)

/-- Result and final temp-directory contents of one sampler run. -/
structure SamplerRun where
  result : Except String (List String)
  tempFiles : List String

/-- `extractFramesFromVideo(videoBuffer, targetFps)`: write the input
file, run ffmpeg; on `end` read every matching frame file (unlinking
each after reading) and unlink the input; on `error` unlink the input
file if present and reject with the error. -/
def extractFramesFromVideo (tempId : String) (videoBuffer : String)
    (outcome : FfmpegOutcome) : SamplerRun :=
  let inputPath := inputName tempId
  let fs0 : List (String × String) := [(inputPath, videoBuffer)]
  match outcome with
  | .ended frames =>
    let fs1 := fs0 ++ frames
    let buffers := frames.map Prod.snd
    let frameNames := frames.map Prod.fst
    let fs2 := fs1.filter (fun f => ! frameNames.contains f.1)
    let fs3 := fs2.filter (fun f => f.1 ≠ inputPath)
    { result := .ok buffers, tempFiles := fs3.map Prod.fst }
  | .errored frames err =>
    let fs1 := fs0 ++ frames
    let fs2 := fs1.filter (fun f => f.1 ≠ inputPath)
    { result := .error err, tempFiles := fs2.map Prod.fst }

/-- A Gemini oracle answering every request with its own system
instruction (used by witnesses). -/
def genEcho : List Part → String → Except String String :=
  fun _ instruction => .ok instruction

/-- A download oracle on which every download fails. -/
def fetchNone : String → Option String := fun _ => none

/-- A frame-extraction oracle on which every extraction fails. -/
def extractNone : String → Nat → Option (List String) := fun _ _ => none

/-- A stored secondary-mode record used by witnesses. -/
def ctxSecondary : Context :=
  ⟨"4", "55", [(ItemType.image, "image/jpeg")], "prev profile", .secondary⟩

/-- An item fails to resolve: its download throws, or (for a video)
the frame extraction throws.  Text items never fail. -/
def resolutionFails (fetch : String → Option String)
    (extract : String → Nat → Option (List String)) (fps : Nat)
    (item : BufferedItem) : Prop :=
  match item.type with
  | .text => False
  | .video =>
    fetch item.url = none ∨ ∃ b, fetch item.url = some b ∧ extract b fps = none
  | _ => fetch item.url = none

/-- A Gemini oracle on which every call throws (all credentials
exhausted). -/
def genFail : List Part → String → Except String String :=
  fun _ _ => .error "All API keys failed."

/-- The concrete pre-state of `dispatch_failure_handling_witness`: chat
2 holds one pending image. -/
def stOneImage : BotState :=
  { userBuffers := fun c =>
      if c = 2 then some [⟨ItemType.image, "http://x/a.jpg", "image/jpeg", "", ""⟩] else none,
    bufferTimeouts := fun _ => none }

section BufferLemmas

theorem appendItem_userBuffers_some {st : BotState} {chatId : Nat} {b : List BufferedItem}
    (h : st.userBuffers chatId = some b) (item : BufferedItem) (now : Nat) :
    (appendItem st chatId item now).userBuffers chatId = some (b ++ [item]) := by
  simp [appendItem, resetTimeout, pushItem, getBuffer, h]

theorem appendItem_userBuffers_none {st : BotState} {chatId : Nat}
    (h : st.userBuffers chatId = none) (item : BufferedItem) (now : Nat) :
    (appendItem st chatId item now).userBuffers chatId = some [item] := by
  simp [appendItem, resetTimeout, pushItem, getBuffer, h]

theorem appendMany_userBuffers_some {chatId : Nat} (l : List (Nat × BufferedItem)) :
    ∀ (st : BotState) (b : List BufferedItem), st.userBuffers chatId = some b →
      (appendMany st chatId l).userBuffers chatId = some (b ++ l.map Prod.snd) := by
  induction l with
  | nil => intro st b h; simpa [appendMany] using h
  | cons p rest ih =>
    intro st b h
    have h1 := appendItem_userBuffers_some h p.2 p.1
    have := ih (appendItem st chatId p.2 p.1) (b ++ [p.2]) h1
    simpa [appendMany] using this

theorem appendMany_userBuffers_none {chatId : Nat} {st : BotState}
    (h : st.userBuffers chatId = none) (l : List (Nat × BufferedItem)) (hl : l ≠ []) :
    (appendMany st chatId l).userBuffers chatId = some (l.map Prod.snd) := by
  match l with
  | [] => exact absurd rfl hl
  | p :: rest =>
    have h1 := appendItem_userBuffers_none h p.2 p.1
    have := appendMany_userBuffers_some rest (appendItem st chatId p.2 p.1) [p.2] h1
    simpa [appendMany] using this

theorem clearBuffer_items {st : BotState} {chatId : Nat} {b : List BufferedItem}
    (h : st.userBuffers chatId = some b) :
    (clearBuffer st chatId).2 = b := by
  simp [clearBuffer, h]

theorem clearBuffer_state (st : BotState) (chatId : Nat) :
    (clearBuffer st chatId).1.userBuffers chatId = none ∧
      (clearBuffer st chatId).1.bufferTimeouts chatId = none := by
  constructor <;> simp [clearBuffer]

end BufferLemmas

/-- **C1.** For every conversation and every sequence of appends to a
fresh (absent) buffer, a drain returns exactly the appended items in
append order and cancels the pending idle timer; an immediately
following second drain returns the empty sequence; and items appended
after a drain form a fresh sequence containing no pre-drain items. -/
theorem buffer_drain_roundtrip (st : BotState) (chatId : Nat)
    (l l2 : List (Nat × BufferedItem)) (h : st.userBuffers chatId = none) :
    (clearBuffer (appendMany st chatId l) chatId).2 = l.map Prod.snd ∧
    (clearBuffer (appendMany st chatId l) chatId).1.bufferTimeouts chatId = none ∧
    (clearBuffer ((clearBuffer (appendMany st chatId l) chatId).1) chatId).2 = [] ∧
    (clearBuffer
      (appendMany ((clearBuffer (appendMany st chatId l) chatId).1) chatId l2)
      chatId).2 = l2.map Prod.snd := by
  have hbuf : (appendMany st chatId l).userBuffers chatId =
      some (l.map Prod.snd) ∨ ((appendMany st chatId l).userBuffers chatId = none ∧ l = []) := by
    rcases eq_or_ne l [] with hl | hl
    · subst hl; right; exact ⟨by simpa [appendMany] using h, rfl⟩
    · left; exact appendMany_userBuffers_none h l hl
  have hdrain1 : (clearBuffer (appendMany st chatId l) chatId).2 = l.map Prod.snd := by
    rcases hbuf with hb | ⟨hb, hl⟩
    · exact clearBuffer_items hb
    · subst hl; simp [clearBuffer, hb]
  refine ⟨hdrain1, ?_, ?_, ?_⟩
  · exact (clearBuffer_state _ _).2
  · have := (clearBuffer_state (appendMany st chatId l) chatId).1
    simp [clearBuffer, this]
  · have hfresh := (clearBuffer_state (appendMany st chatId l) chatId).1
    rcases eq_or_ne l2 [] with hl2 | hl2
    · subst hl2; simp [appendMany, clearBuffer, hfresh]
    · exact clearBuffer_items (appendMany_userBuffers_none hfresh l2 hl2)

theorem appendItem_bufferTimeouts (st : BotState) (chatId : Nat)
    (item : BufferedItem) (now : Nat) :
    (appendItem st chatId item now).bufferTimeouts chatId = some (now + MEDIA_TIMEOUT_MS) := by
  simp [appendItem, resetTimeout]

theorem appendMany_bufferTimeouts {chatId : Nat} (l : List (Nat × BufferedItem))
    (hl : l ≠ []) : ∀ st : BotState,
    (appendMany st chatId l).bufferTimeouts chatId =
      (l.getLast? ).map (fun p => p.1 + MEDIA_TIMEOUT_MS) := by
  induction l with
  | nil => exact absurd rfl hl
  | cons p rest ih =>
    intro st
    match rest, ih with
    | [], _ => simp [appendMany, appendItem_bufferTimeouts]
    | q :: rest2, ih =>
      rw [show appendMany st chatId (p :: q :: rest2) =
          appendMany (appendItem st chatId p.2 p.1) chatId (q :: rest2) from rfl,
        ih (List.cons_ne_nil q rest2) _, List.getLast?_cons_cons]

theorem timeoutCallback_fst (st : BotState) (chatId : Nat) :
    (timeoutCallback st chatId).1 = (clearBuffer st chatId).1 := by
  simp only [timeoutCallback]
  split <;> rfl

/-- **C6.** The idle timer is single-shot and re-armed from the most
recent append: after a non-empty append sequence the armed deadline is
the last append time plus `MEDIA_TIMEOUT_MS` (a sliding window).  If it
fires then, the callback drains the buffer and emits exactly one
inactivity notification whose discarded count is the number of items
present at the last append; afterwards both the buffer and the timer
entry are gone, so the timer cannot fire a second time. -/
theorem idle_timer_sliding_window (st : BotState) (chatId : Nat)
    (l : List (Nat × BufferedItem)) (tLast : Nat) (itLast : BufferedItem)
    (h : st.userBuffers chatId = none) (hlast : l.getLast? = some (tLast, itLast)) :
    (appendMany st chatId l).bufferTimeouts chatId = some (tLast + MEDIA_TIMEOUT_MS) ∧
    (timeoutCallback (appendMany st chatId l) chatId).2 = [timeoutMessage l.length] ∧
    (timeoutCallback (appendMany st chatId l) chatId).1.userBuffers chatId = none ∧
    (timeoutCallback (appendMany st chatId l) chatId).1.bufferTimeouts chatId = none := by
  have hl : l ≠ [] := by
    intro hnil; rw [hnil] at hlast; simp at hlast
  have hbuf := appendMany_userBuffers_none h l hl
  have hitems := clearBuffer_items hbuf
  refine ⟨?_, ?_, ?_, ?_⟩
  · rw [appendMany_bufferTimeouts l hl st, hlast]; rfl
  · have hpos : 0 < l.length := List.length_pos.mpr hl
    simp [timeoutCallback, hitems, hpos]
  · rw [timeoutCallback_fst]
    exact (clearBuffer_state _ _).1
  · rw [timeoutCallback_fst]
    exact (clearBuffer_state _ _).2

/-- Closed instance of `idle_timer_sliding_window` at a concrete append
sequence of two items. -/
theorem idle_timer_sliding_window_witness :
    emptyState.userBuffers 3 = none ∧
    ([(100, (⟨ItemType.text, "", "", "", "n1"⟩ : BufferedItem)),
      (200, ⟨ItemType.text, "", "", "", "n2"⟩)].getLast? =
        some (200, ⟨ItemType.text, "", "", "", "n2"⟩)) ∧
    (timeoutCallback (appendMany emptyState 3
        [(100, ⟨ItemType.text, "", "", "", "n1"⟩),
         (200, ⟨ItemType.text, "", "", "", "n2"⟩)]) 3).2 = [timeoutMessage 2] := by
  refine ⟨rfl, rfl, ?_⟩
  exact (idle_timer_sliding_window emptyState 3
    [(100, ⟨ItemType.text, "", "", "", "n1"⟩),
     (200, ⟨ItemType.text, "", "", "", "n2"⟩)] 200
    ⟨ItemType.text, "", "", "", "n2"⟩ rfl rfl).2.1

/-- Closed instance of `buffer_drain_roundtrip` discharging its
hypothesis at a concrete state and append sequence. -/
theorem buffer_drain_roundtrip_witness :
    emptyState.userBuffers 7 = none ∧
    (clearBuffer (appendMany emptyState 7
        [(10, ⟨ItemType.text, "", "", "", "note A"⟩),
         (20, ⟨ItemType.image, "http://x/a.jpg", "image/jpeg", "", ""⟩)]) 7).2 =
      [⟨ItemType.text, "", "", "", "note A"⟩,
       ⟨ItemType.image, "http://x/a.jpg", "image/jpeg", "", ""⟩] := by
  refine ⟨rfl, ?_⟩
  exact (buffer_drain_roundtrip emptyState 7
    [(10, ⟨ItemType.text, "", "", "", "note A"⟩),
     (20, ⟨ItemType.image, "http://x/a.jpg", "image/jpeg", "", ""⟩)] [] rfl).1

theorem tryKeysLoop_all_fail (outcome : String → Option String) :
    ∀ keys : List String, (∀ k ∈ keys, outcome k = none) →
      tryKeysLoop outcome keys = (.error "All API keys failed.", keys) := by
  intro keys
  induction keys with
  | nil => intro _; rfl
  | cons k rest ih =>
    intro hall
    have hk : outcome k = none := hall k (List.mem_cons_self k rest)
    have hrest := ih (fun k' hk' => hall k' (List.mem_cons_of_mem k hk'))
    simp [tryKeysLoop, hk, hrest]

theorem tryKeysLoop_first_success (outcome : String → Option String) :
    ∀ (pre : List String) (k : String) (post : List String) (r : String),
      (∀ k' ∈ pre, outcome k' = none) → outcome k = some r →
      tryKeysLoop outcome (pre ++ k :: post) = (.ok r, pre ++ [k]) := by
  intro pre
  induction pre with
  | nil =>
    intro k post r _ hk
    simp [tryKeysLoop, hk]
  | cons q rest ih =>
    intro k post r hpre hk
    have hq : outcome q = none := hpre q (List.mem_cons_self q rest)
    have := ih k post r (fun k' hk' => hpre k' (List.mem_cons_of_mem q hk')) hk
    simp [tryKeysLoop, hq, this]

/-- **C2.** For every non-empty ordered key list and every per-key
outcome assignment, `generateGeminiResponse` tries keys strictly in
list order: when the list splits as `pre ++ k :: post` with every key
of `pre` failing and `k` succeeding, the call returns the result of
`k` having invoked exactly `pre ++ [k]` (no key after `k` is touched);
when every key fails it throws the aggregate error `"All API keys
failed."` having tried them all.  The function is deterministic in its
arguments, so the ordering is fixed across calls. -/
theorem key_rotation_order (keys : List String) (outcome : String → Option String)
    (hne : keys ≠ []) :
    ((∀ k ∈ keys, outcome k = none) →
      generateGeminiResponse keys outcome = (.error "All API keys failed.", keys)) ∧
    (∀ (pre : List String) (k : String) (post : List String) (r : String),
      keys = pre ++ k :: post → (∀ k' ∈ pre, outcome k' = none) → outcome k = some r →
      generateGeminiResponse keys outcome = (.ok r, pre ++ [k])) := by
  have hlen : ¬ keys.length = 0 := by
    simpa [List.length_eq_zero] using hne
  constructor
  · intro hall
    rw [generateGeminiResponse, if_neg hlen]
    exact tryKeysLoop_all_fail outcome keys hall
  · intro pre k post r hsplit hpre hk
    rw [generateGeminiResponse, if_neg hlen, hsplit]
    exact tryKeysLoop_first_success outcome pre k post r hpre hk

/-- Closed instance of `key_rotation_order`: with keys
`[A(fails), B(fails), C(succeeds)]` the client returns the result of
`C` and the trace records exactly the two failures before it. -/
theorem key_rotation_order_witness :
    (["A", "B", "C"] : List String) ≠ [] ∧
    generateGeminiResponse ["A", "B", "C"] outcomeABC =
      (.ok "profile text", ["A", "B", "C"]) := by
  refine ⟨by decide, ?_⟩
  exact (key_rotation_order ["A", "B", "C"] outcomeABC (by decide)).2
    ["A", "B"] "C" [] "profile text" rfl (by decide) (by decide)

/-- **C4 counterexample.** The claim reads the classifier as matching
the *leading token* against the fixed word set, but the code uses
`startsWith`: on `"Islet cell tumor noted"` the code returns `true`
(the text starts with the characters `is`) while the leading token
`islet` is not in the set and the text does not end with `?`, so the
claimed characterisation returns `false`. -/
theorem question_classifier_cex :
    isQuestion (some "Islet cell tumor noted") = true ∧
    isQuestionSpec (some "Islet cell tumor noted") = false := by
  constructor <;> rfl

/-- **C4 (amended).** The question classifier returns `true` iff the
text is non-empty and its trimmed lowercased form ends with `?` or
*starts with* (as a character prefix, not a whole leading token) one of
`what`, `why`, `how`, `is`, `does`, `can`, `explain`; in particular
`"What does this mean?"`, `"Explain hepatomegaly"` and `"?"` classify
as questions while `"The patient also has diabetes"` classifies as a
correction. -/
theorem question_classifier_amended :
    (∀ s : String, isQuestion (some s) = true ↔
      (s ≠ "" ∧ (['?'] <:+ jsTrim (jsToLower s.data) ∨
        ∃ w ∈ questionWords, w.data <+: jsTrim (jsToLower s.data)))) ∧
    isQuestion (some "What does this mean?") = true ∧
    isQuestion (some "Explain hepatomegaly") = true ∧
    isQuestion (some "?") = true ∧
    isQuestion (some "The patient also has diabetes") = false := by
  refine ⟨?_, rfl, rfl, rfl, rfl⟩
  intro s
  by_cases hs : s = ""
  · subst hs
    simp [isQuestion]
  · simp [isQuestion, hs, jsEndsWith, jsStartsWith, List.isSuffixOf_iff_suffix,
      List.isPrefixOf_iff_prefix, List.any_eq_true]

/-- **C3.** In chained (`secondary`) mode with no follow-up context:
the first Gemini call is made under the primary profile over the
resolved content; if it throws, no second call happens and the error
propagates with exactly one recorded call; if it returns `r`, a second
call is made under the secondary profile whose content is the single
text part wrapping `r` (no media parts), and on its success only its
output is returned, tagged `secondary`. -/
theorem chained_mode_two_calls (gen : List Part → String → Except String String)
    (fetch : String → Option String) (extract : String → Nat → Option (List String))
    (chatId : Nat) (items : List BufferedItem) (q : Option String)
    (fps : Nat) (e r r2 : String) :
    (gen (Part.textPart (freshPrompt (resolveItems fetch extract fps items).2) ::
        (resolveItems fetch extract fps items).1) PRIMARY_SYSTEM_INSTRUCTION = .error e →
      processRequest gen fetch extract chatId items .secondary none q fps =
        (.error e,
         [⟨Part.textPart (freshPrompt (resolveItems fetch extract fps items).2) ::
             (resolveItems fetch extract fps items).1, PRIMARY_SYSTEM_INSTRUCTION⟩])) ∧
    (gen (Part.textPart (freshPrompt (resolveItems fetch extract fps items).2) ::
        (resolveItems fetch extract fps items).1) PRIMARY_SYSTEM_INSTRUCTION = .ok r →
     gen [Part.textPart (secondaryPrompt r)] SECONDARY_SYSTEM_INSTRUCTION = .ok r2 →
      processRequest gen fetch extract chatId items .secondary none q fps =
        (.ok ⟨r2, .secondary⟩,
         [⟨Part.textPart (freshPrompt (resolveItems fetch extract fps items).2) ::
             (resolveItems fetch extract fps items).1, PRIMARY_SYSTEM_INSTRUCTION⟩,
          ⟨[Part.textPart (secondaryPrompt r)], SECONDARY_SYSTEM_INSTRUCTION⟩])) := by
  constructor
  · intro h1
    simp [processRequest, h1]
  · intro h1 h2
    simp [processRequest, h1, h2]

/-- Closed instance of `chained_mode_two_calls` with the echo oracle:
both hypotheses hold definitionally and the chained dispatch returns
the secondary output with the two recorded calls. -/
theorem chained_mode_two_calls_witness :
    genEcho (Part.textPart (freshPrompt (resolveItems fetchNone extractNone 3 []).2) ::
        (resolveItems fetchNone extractNone 3 []).1) PRIMARY_SYSTEM_INSTRUCTION =
      .ok PRIMARY_SYSTEM_INSTRUCTION ∧
    genEcho [Part.textPart (secondaryPrompt PRIMARY_SYSTEM_INSTRUCTION)]
        SECONDARY_SYSTEM_INSTRUCTION = .ok SECONDARY_SYSTEM_INSTRUCTION ∧
    processRequest genEcho fetchNone extractNone 9 [] .secondary none none 3 =
      (.ok ⟨SECONDARY_SYSTEM_INSTRUCTION, .secondary⟩,
       [⟨[Part.textPart (freshPrompt [])], PRIMARY_SYSTEM_INSTRUCTION⟩,
        ⟨[Part.textPart (secondaryPrompt PRIMARY_SYSTEM_INSTRUCTION)],
          SECONDARY_SYSTEM_INSTRUCTION⟩]) := by
  refine ⟨rfl, rfl, ?_⟩
  exact (chained_mode_two_calls genEcho fetchNone extractNone 9 [] none 3 ""
    PRIMARY_SYSTEM_INSTRUCTION SECONDARY_SYSTEM_INSTRUCTION).2 rfl rfl

/-- **C5.** For every follow-up (a dispatch carrying a previous
context): the single Gemini call is submitted under the instruction
profile matching the inherited mode (secondary profile iff the
replied-to record is `secondary`), regardless of the reply text; a
successful result carries the replied-to record's mode; and the record
the reply handler persists carries that same mode.  The mode chain of
a thread is therefore immutable. -/
theorem followup_mode_inheritance (gen : List Part → String → Except String String)
    (fetch : String → Option String) (extract : String → Nat → Option (List String))
    (chatId : Nat) (items : List BufferedItem) (mode : Mode) (ctx : Context)
    (q : Option String) (fps : Nat) :
    ((processRequest gen fetch extract chatId items mode (some ctx) q fps).2.map
        GenCall.systemInstruction =
      [if ctx.mode = Mode.secondary then SECONDARY_SYSTEM_INSTRUCTION
       else PRIMARY_SYSTEM_INSTRUCTION]) ∧
    (∀ r, (processRequest gen fetch extract chatId items mode (some ctx) q fps).1 = .ok r →
      r.mode = ctx.mode) ∧
    (∀ (env : HandlerEnv) (st : BotState) (text : String) (startId : Nat) (r : ProcResult),
      (processRequest env.gen env.fetch env.extract chatId [] ctx.mode (some ctx)
          (some text) 3).1 = .ok r →
      (handleReply env st chatId text ctx startId).saved.map Context.mode = [ctx.mode]) := by
  refine ⟨?_, ?_, ?_⟩
  · cases hg : gen (Part.textPart
        (if isQuestion q then
          questionPrompt ctx.responseText (resolveItems fetch extract fps items).2 (optToJs q)
         else correctionPrompt ctx.responseText (optToJs q)
          (resolveItems fetch extract fps items).2) ::
        (resolveItems fetch extract fps items).1)
      (if ctx.mode = Mode.secondary then SECONDARY_SYSTEM_INSTRUCTION
       else PRIMARY_SYSTEM_INSTRUCTION) with
    | ok response => simp [processRequest, hg]
    | error e => simp [processRequest, hg]
  · intro r hr
    cases hg : gen (Part.textPart
        (if isQuestion q then
          questionPrompt ctx.responseText (resolveItems fetch extract fps items).2 (optToJs q)
         else correctionPrompt ctx.responseText (optToJs q)
          (resolveItems fetch extract fps items).2) ::
        (resolveItems fetch extract fps items).1)
      (if ctx.mode = Mode.secondary then SECONDARY_SYSTEM_INSTRUCTION
       else PRIMARY_SYSTEM_INSTRUCTION) with
    | ok response =>
      simp [processRequest, hg] at hr
      rw [← hr]
    | error e => simp [processRequest, hg] at hr
  · intro env st text startId r hok
    simp [handleReply, hok]

/-- Closed instance of `followup_mode_inheritance`: a reply to a
secondary record with the echo oracle succeeds, and the persisted
record carries mode `secondary`. -/
theorem followup_mode_inheritance_witness :
    (processRequest genEcho fetchNone extractNone 4 [] Mode.secondary (some ctxSecondary)
        (some "and BP is 120") 3).1 =
      .ok ⟨SECONDARY_SYSTEM_INSTRUCTION, .secondary⟩ ∧
    (handleReply ⟨genEcho, fetchNone, extractNone, fun _ _ => none, 0⟩ emptyState 4
        "and BP is 120" ctxSecondary 10).saved.map Context.mode = [Mode.secondary] := by
  refine ⟨rfl, ?_⟩
  exact (followup_mode_inheritance genEcho fetchNone extractNone 4 [] Mode.secondary
    ctxSecondary (some "and BP is 120") 3).2.2
    ⟨genEcho, fetchNone, extractNone, fun _ _ => none, 0⟩ emptyState "and BP is 120" 10
    ⟨SECONDARY_SYSTEM_INSTRUCTION, .secondary⟩ rfl

/-- **C7 counterexample.** The claim says all intermediate frame files
are removed on the failure path too, but the `error` handler of
`extractFramesFromVideo` only unlinks the input file: when ffmpeg
fails after having written one frame file, that frame file remains in
the temp directory while the error propagates. -/
theorem sampler_cleanup_cex :
    (extractFramesFromVideo "ab" "vbytes"
        (.errored [("frame_ab_001.jpg", "f1")] "boom")).result = .error "boom" ∧
    (extractFramesFromVideo "ab" "vbytes"
        (.errored [("frame_ab_001.jpg", "f1")] "boom")).tempFiles = ["frame_ab_001.jpg"] ∧
    (extractFramesFromVideo "ab" "vbytes"
        (.errored [("frame_ab_001.jpg", "f1")] "boom")).tempFiles ≠ [] := by
  refine ⟨rfl, rfl, ?_⟩
  decide

/-- **C7 (amended).** On the success path every temporary artifact
(the decoded frame files and the input file) is removed and the frames
are returned in order; on the failure path the sampler still removes
the temporary input file and propagates the failure to the caller
(never an empty success), but frame files already written by ffmpeg
are not removed. -/
theorem sampler_cleanup_amended (tempId videoBuffer : String)
    (frames : List (String × String)) (err : String) :
    (extractFramesFromVideo tempId videoBuffer (.ended frames)).tempFiles = [] ∧
    (extractFramesFromVideo tempId videoBuffer (.ended frames)).result =
      .ok (frames.map Prod.snd) ∧
    (extractFramesFromVideo tempId videoBuffer (.errored frames err)).result = .error err ∧
    inputName tempId ∉
      (extractFramesFromVideo tempId videoBuffer (.errored frames err)).tempFiles ∧
    (extractFramesFromVideo tempId videoBuffer (.errored frames err)).tempFiles =
      (frames.map Prod.fst).filter (fun n => n ≠ inputName tempId) := by
  refine ⟨?_, rfl, rfl, ?_, ?_⟩
  · have hnil :
        ((([(inputName tempId, videoBuffer)] ++ frames).filter
            (fun f => ! (frames.map Prod.fst).contains f.1)).filter
          (fun f => f.1 ≠ inputName tempId)) = ([] : List (String × String)) := by
      rw [List.filter_eq_nil_iff]
      intro x hx
      have hx1 := List.mem_filter.mp hx
      rcases List.mem_append.mp hx1.1 with h | h
      · rw [List.mem_singleton.mp h]; simp
      · exfalso
        have hno := hx1.2
        simp at hno
        exact hno x.2 (by simpa using h)
    simp only [extractFramesFromVideo]
    rw [hnil]
    rfl
  · intro hmem
    simp [extractFramesFromVideo] at hmem
  · simp [extractFramesFromVideo, List.filter_map, Function.comp]
    exact congrArg (List.map Prod.fst) (List.filter_congr (fun x _ => rfl))

theorem resolveOne_of_fails {fetch : String → Option String}
    {extract : String → Nat → Option (List String)} {fps : Nat}
    {item : BufferedItem} (h : resolutionFails fetch extract fps item) :
    resolveOne fetch extract fps item = ([], []) := by
  unfold resolutionFails at h
  cases ht : item.type with
  | text => rw [ht] at h; exact absurd h id
  | video =>
    rw [ht] at h
    rcases h with hf | ⟨b, hb, he⟩
    · simp [resolveOne, ht, hf]
    · simp [resolveOne, ht, hb, he]
  | image => rw [ht] at h; simp [resolveOne, ht, h]
  | pdf => rw [ht] at h; simp [resolveOne, ht, h]
  | audio => rw [ht] at h; simp [resolveOne, ht, h]

theorem resolveItems_append (fetch : String → Option String)
    (extract : String → Nat → Option (List String)) (fps : Nat)
    (l1 l2 : List BufferedItem) :
    resolveItems fetch extract fps (l1 ++ l2) =
      ((resolveItems fetch extract fps l1).1 ++ (resolveItems fetch extract fps l2).1,
       (resolveItems fetch extract fps l1).2 ++ (resolveItems fetch extract fps l2).2) := by
  induction l1 with
  | nil => simp [resolveItems]
  | cons it rest ih => simp [resolveItems, ih]

theorem resolveItems_all_fail {fetch : String → Option String}
    {extract : String → Nat → Option (List String)} {fps : Nat} :
    ∀ {items : List BufferedItem},
      (∀ item ∈ items, resolutionFails fetch extract fps item) →
      resolveItems fetch extract fps items = ([], []) := by
  intro items
  induction items with
  | nil => intro _; rfl
  | cons it rest ih =>
    intro hall
    have h1 := resolveOne_of_fails (hall it (List.mem_cons_self it rest))
    have h2 := ih (fun i hi => hall i (List.mem_cons_of_mem it hi))
    simp [resolveItems, h1, h2]

/-- **C8.** A failure to download or decode a single buffered item
drops only that item from the resolved content (the rest resolves as
if the item were absent), and even when every item fails the primary
dispatch still makes its Gemini call with an empty content-part list
(only the prompt text part). -/
theorem item_failure_isolation (gen : List Part → String → Except String String)
    (fetch : String → Option String) (extract : String → Nat → Option (List String))
    (chatId : Nat) (fps : Nat) :
    (∀ (pre post : List BufferedItem) (item : BufferedItem),
      resolutionFails fetch extract fps item →
      resolveItems fetch extract fps (pre ++ item :: post) =
        resolveItems fetch extract fps (pre ++ post)) ∧
    (∀ items : List BufferedItem,
      (∀ item ∈ items, resolutionFails fetch extract fps item) →
      (processRequest gen fetch extract chatId items .primary none none fps).2 =
        [⟨[Part.textPart (freshPrompt [])], PRIMARY_SYSTEM_INSTRUCTION⟩]) := by
  constructor
  · intro pre post item hfail
    rw [resolveItems_append, resolveItems_append]
    have : resolveItems fetch extract fps (item :: post) =
        resolveItems fetch extract fps post := by
      simp [resolveItems, resolveOne_of_fails hfail]
    rw [this]
  · intro items hall
    have hres := resolveItems_all_fail hall
    cases hg : gen [Part.textPart (freshPrompt [])] PRIMARY_SYSTEM_INSTRUCTION with
    | ok response => simp [processRequest, hres, hg]
    | error e => simp [processRequest, hres, hg]

/-- Closed instance of `item_failure_isolation`: a single image item
whose download fails still leads to exactly one Gemini call whose
content is just the prompt. -/
theorem item_failure_isolation_witness :
    (∀ item ∈ [(⟨ItemType.image, "http://x/a.jpg", "image/jpeg", "", ""⟩ : BufferedItem)],
      resolutionFails fetchNone extractNone 3 item) ∧
    (processRequest genEcho fetchNone extractNone 5
        [⟨ItemType.image, "http://x/a.jpg", "image/jpeg", "", ""⟩]
        .primary none none 3).2 =
      [⟨[Part.textPart (freshPrompt [])], PRIMARY_SYSTEM_INSTRUCTION⟩] := by
  have hall : ∀ item ∈ [(⟨ItemType.image, "http://x/a.jpg", "image/jpeg", "", ""⟩ : BufferedItem)],
      resolutionFails fetchNone extractNone 3 item := by
    intro item hi
    rw [List.mem_singleton.mp hi]
    exact rfl
  exact ⟨hall,
    (item_failure_isolation genEcho fetchNone extractNone 5 3).2
      [⟨ItemType.image, "http://x/a.jpg", "image/jpeg", "", ""⟩] hall⟩

/-- **C9.** For a trigger command over a non-empty buffer whose
dispatch throws (all credentials exhausted): the buffer stays drained
(the removed items are not restored), the handler sends exactly the
loading notice followed by one explanatory failure reply, and nothing
is persisted — the trigger is never dropped silently. -/
theorem dispatch_failure_handling (env : HandlerEnv) (st : BotState)
    (chatId : Nat) (items : List BufferedItem) (text0 : String)
    (replyTo : Option Nat) (startId : Nat) (e : String)
    (htrig : (isPrimaryTrigger (jsTrimStr text0) ||
      isSecondaryTrigger (jsTrimStr text0)) = true)
    (hbuf : st.userBuffers chatId = some items) (hne : items ≠ [])
    (hfail : (processRequest env.gen env.fetch env.extract chatId items
        (if isSecondaryTrigger (jsTrimStr text0) then Mode.secondary else Mode.primary)
        none none (parseFps (jsTrimStr text0))).1 = .error e) :
    (handleText env st chatId text0 replyTo startId).state.userBuffers chatId = none ∧
    (handleText env st chatId text0 replyTo startId).replies =
      ["⏳ Processing " ++ toString items.length ++ " items (" ++
         (if isSecondaryTrigger (jsTrimStr text0) then "CHAINED Analysis"
          else "Clinical Profile") ++
         ", Smart " ++ toString (parseFps (jsTrimStr text0)) ++ " FPS)...",
       "❌ Error: " ++ e] ∧
    (handleText env st chatId text0 replyTo startId).saved = [] := by
  have hitems := clearBuffer_items hbuf
  have hlen : ¬ items.length = 0 := by
    simpa [List.length_eq_zero] using hne
  have hstate := (clearBuffer_state st chatId).1
  simp only [handleText, htrig, if_true]
  simp only [handleTrigger, hitems, hlen, if_false, ite_false]
  simp only [hfail]
  exact ⟨hstate, trivial, trivial⟩

/-- Closed instance of `dispatch_failure_handling`: the trigger `.`
over a one-item buffer with every credential failing yields the
loading notice, one failure reply, an emptied buffer and no persisted
record. -/
theorem dispatch_failure_handling_witness :
    ((isPrimaryTrigger (jsTrimStr ".") || isSecondaryTrigger (jsTrimStr ".")) = true) ∧
    (stOneImage.userBuffers 2 =
      some [⟨ItemType.image, "http://x/a.jpg", "image/jpeg", "", ""⟩]) ∧
    ((handleText ⟨genFail, fetchNone, extractNone, fun _ _ => none, 0⟩ stOneImage 2 "."
        none 50).state.userBuffers 2 = none ∧
     (handleText ⟨genFail, fetchNone, extractNone, fun _ _ => none, 0⟩ stOneImage 2 "."
        none 50).replies =
       ["⏳ Processing 1 items (Clinical Profile, Smart 3 FPS)...",
        "❌ Error: All API keys failed."] ∧
     (handleText ⟨genFail, fetchNone, extractNone, fun _ _ => none, 0⟩ stOneImage 2 "."
        none 50).saved = []) := by
  refine ⟨rfl, rfl, ?_⟩
  have h := dispatch_failure_handling ⟨genFail, fetchNone, extractNone, fun _ _ => none, 0⟩
    stOneImage 2 [⟨ItemType.image, "http://x/a.jpg", "image/jpeg", "", ""⟩] "." none 50
    "All API keys failed." rfl rfl (by intro hcontra; cases hcontra) rfl
  exact ⟨h.1, h.2.1, h.2.2⟩

theorem jsToLowerChar_ws {c : Char} (h : jsIsWhitespace c = true) :
    jsToLowerChar c = c := by
  have hn : ¬ ('A' ≤ c ∧ c ≤ 'Z') := by
    simp only [jsIsWhitespace, Bool.or_eq_true, decide_eq_true_eq] at h
    rcases h with ((((((h | h) | h) | h) | h) | h) | h) | h
    all_goals (subst h; decide)
  simp [jsToLowerChar, hn]

theorem jsTrim_jsToLower_all_ws {l : List Char}
    (h : ∀ c ∈ l, jsIsWhitespace c = true) :
    jsTrim (jsToLower l) = [] := by
  have hmap : jsToLower l = l := by
    unfold jsToLower
    have := List.map_congr_left (l := l) (f := jsToLowerChar) (g := id)
      (fun c hc => jsToLowerChar_ws (h c hc))
    simpa using this
  rw [hmap]
  have hdrop : l.dropWhile jsIsWhitespace = [] :=
    List.dropWhile_eq_nil_iff.mpr h
  simp [jsTrim, hdrop]

/-- **C10.** For a missing, empty, or whitespace-only reply text the
question classifier returns `false`, so a follow-up dispatch with such
a query always builds the update/correction prompt (never the question
prompt): its single Gemini call carries the correction prompt followed
by the resolved content. -/
theorem empty_reply_is_correction (q : Option String)
    (hq : q = none ∨ ∃ s, q = some s ∧ ∀ c ∈ s.data, jsIsWhitespace c = true) :
    isQuestion q = false ∧
    ∀ (gen : List Part → String → Except String String)
      (fetch : String → Option String) (extract : String → Nat → Option (List String))
      (chatId : Nat) (items : List BufferedItem) (mode : Mode) (ctx : Context) (fps : Nat),
      (processRequest gen fetch extract chatId items mode (some ctx) q fps).2.map
          GenCall.parts =
        [Part.textPart (correctionPrompt ctx.responseText (optToJs q)
            (resolveItems fetch extract fps items).2) ::
          (resolveItems fetch extract fps items).1] := by
  have hfalse : isQuestion q = false := by
    rcases hq with h | ⟨s, hs, hws⟩
    · subst h; rfl
    · subst hs
      by_cases hempty : s = ""
      · simp [isQuestion, hempty]
      · have ht : jsTrim (jsToLower s.data) = [] := jsTrim_jsToLower_all_ws hws
        simp [isQuestion, hempty, ht]
        decide
  refine ⟨hfalse, ?_⟩
  intro gen fetch extract chatId items mode ctx fps
  cases hg : gen (Part.textPart (correctionPrompt ctx.responseText (optToJs q)
      (resolveItems fetch extract fps items).2) ::
      (resolveItems fetch extract fps items).1)
    (if ctx.mode = Mode.secondary then SECONDARY_SYSTEM_INSTRUCTION
     else PRIMARY_SYSTEM_INSTRUCTION) with
  | ok response => simp [processRequest, hfalse, hg]
  | error e => simp [processRequest, hfalse, hg]

/-- Closed instance of `empty_reply_is_correction` at the
whitespace-only reply text consisting of one space. -/
theorem empty_reply_is_correction_witness :
    ((some " " : Option String) = none ∨
      ∃ s, (some " " : Option String) = some s ∧ ∀ c ∈ s.data, jsIsWhitespace c = true) ∧
    isQuestion (some " ") = false := by
  have hq : (some " " : Option String) = none ∨
      ∃ s, (some " " : Option String) = some s ∧ ∀ c ∈ s.data, jsIsWhitespace c = true := by
    right
    exact ⟨" ", rfl, by decide⟩
  exact ⟨hq, (empty_reply_is_correction (some " ") hq).1⟩

end PatientBot
